import Mathlib

/-!
# Voice/text agent front-end (`script.js`)

A shallow embedding of the event handlers of `script.js` and the properties
of its submission path, its response rendering and its listening controller.

The page is a record `World`: the DOM fields the script reads and writes, the
two module variables, and append-only logs of the calls made to the platform
(`fetch`, `window.open`, `console.error`, `speechSynthesis`, `recognition.stop`).
Every handler is a function `World → World`.  `sendToAgent` is `async`: its
synchronous prefix (up to the call of `fetch`) is `sendToAgent_begin`, its
continuation once the request has settled is `sendToAgent_settle`.
-/

namespace AgentUI

/-! ## JavaScript values -/

/-- A JavaScript value as far as this script meets one: what `res.json()` can
return (`null`, booleans, numbers, strings, arrays, objects as key/value lists),
and `undefined`, the value of a missing property.  Numbers carry an integer: the
script only ever asks whether a number is zero. -/
inductive JsValue where
  | undefined : JsValue
  | null : JsValue
  | bool (b : Bool) : JsValue
  | num (n : Int) : JsValue
  | str (s : String) : JsValue
  | arr (items : List JsValue) : JsValue
  | obj (fields : List (String × JsValue)) : JsValue

/-- The errors that reach the `catch` block of `sendToAgent` or `console.error`. -/
inductive JsError where
  | agentHttp (status : Nat) : JsError
  | network : JsError
  | parse : JsError
  | typeError : JsError
  | speech : JsError
  deriving DecidableEq, Repr

/-- JavaScript truthiness (`if (v)`, `v || w`, `!v`). -/
def truthy : JsValue → Bool
  | .undefined => false
  | .null => false
  | .bool b => b
  | .num n => n != 0
  | .str s => s != ""
  | .arr _ => true
  | .obj _ => true

/-- The expression `a || b`. -/
def jsOr (a b : JsValue) : JsValue := if truthy a then a else b

/-- Own-property lookup in an object given as a key/value list (the keys of a
parsed object are distinct). -/
def lookupField (k : String) : List (String × JsValue) → Option JsValue
  | [] => none
  | (k', v) :: rest => if k' = k then some v else lookupField k rest

/-- The expression `data.k` for one of the names the script reads from the
parsed body (`steps`, `speechResponse`, `telLink`, `mapsUrl`, `calendarUrl`,
`openUrl`), none of which is a built-in property: reading it from `null` or
`undefined` throws, from an object it gives the own property or `undefined`,
from any other value `undefined`. -/
def getField (data : JsValue) (k : String) : Except JsError JsValue :=
  match data with
  | .undefined => .error .typeError
  | .null => .error .typeError
  | .obj fields => .ok ((lookupField k fields).getD .undefined)
  | _ => .ok .undefined

/-- The test `steps.length === 0` on a truthy value. -/
def lengthIsZero : JsValue → Bool
  | .arr items => items.length == 0
  | .str s => s.length == 0
  | .obj fields =>
    match lookupField "length" fields with
    | some (.num n) => n == 0
    | _ => false
  | _ => false

/-! ## `String.prototype.trim` -/

/-- The code points `trim` strips: ECMAScript WhiteSpace and LineTerminator. -/
def isJsWhiteSpace (c : Char) : Bool :=
  c.toNat ∈ [0x09, 0x0A, 0x0B, 0x0C, 0x0D, 0x20, 0xA0, 0x1680,
    0x2000, 0x2001, 0x2002, 0x2003, 0x2004, 0x2005, 0x2006, 0x2007, 0x2008,
    0x2009, 0x200A, 0x2028, 0x2029, 0x202F, 0x205F, 0x3000, 0xFEFF]

/-- The list form of `trim`: white space dropped at both ends. -/
def trimChars (cs : List Char) : List Char :=
  ((cs.dropWhile isJsWhiteSpace).reverse.dropWhile isJsWhiteSpace).reverse

/-- The method call `s.trim()`. -/
def jsTrim (s : String) : String := String.mk (trimChars s.data)

/-- The expression `s || ''` on a string. -/
def orEmpty (s : String) : String := if s != "" then s else ""

/-! ## The page -/

/-- One rendered `div.action-item`: its title, its badge and the link its
"Open" button opens. -/
structure ActionItem where
  label : String
  badgeClass : String
  badgeText : String
  url : JsValue

/-- A call of `fetch`: the fixed path and method, and the `query` of the body. -/
structure Request where
  url : String
  method : String
  query : String
  deriving DecidableEq, Repr

/-- The page state and the logs of platform calls. -/
structure World where
  /-- whether `'speechSynthesis' in window` holds -/
  hasSpeechSynthesis : Bool
  /-- whether `'webkitSpeechRecognition' in window` holds -/
  hasWebkitSpeechRecognition : Bool
  /-- whether `'SpeechRecognition' in window` holds -/
  hasSpeechRecognition : Bool
  /-- content of the transcript element, `transcriptEl.textContent` -/
  transcript : String
  /-- the value given to `textContent` of each `li` of `planList`, in order -/
  planList : List JsValue
  /-- the children of `actionsBox`, in order -/
  actionsBox : List ActionItem
  /-- value of the text field, `textInput.value` -/
  textInput : String
  /-- state of the auto-run checkbox, `autoRunActions.checked` -/
  autoRunActions : Bool
  /-- whether the start control is disabled, `listenBtn.disabled` -/
  listenBtnDisabled : Bool
  /-- whether the stop control is disabled, `stopBtn.disabled` -/
  stopBtnDisabled : Bool
  /-- module variable `recognition`: `none` is `null`, `some n` the n-th object created -/
  recognition : Option Nat
  /-- module variable `isListening` -/
  isListening : Bool
  /-- number of recognition objects created so far -/
  recognitionsCreated : Nat
  /-- calls of `recognition.start()`, by object -/
  startCalls : List Nat
  /-- calls of `recognition.stop()`, by object -/
  stopCalls : List Nat
  /-- calls of `speak(text)` -/
  speakCalls : List JsValue
  /-- the utterance queue of `window.speechSynthesis` -/
  synthQueue : List JsValue
  /-- calls of `window.open(url, '_blank')` made outside a button click -/
  opened : List JsValue
  /-- calls of `console.error` -/
  errors : List JsError
  /-- calls of `fetch` -/
  requests : List Request
  /-- calls of `res.json()` -/
  jsonCalls : Nat

/-- The function `supportsSpeechRecognition`. -/
def supportsSpeechRecognition (w : World) : Bool :=
  w.hasWebkitSpeechRecognition || w.hasSpeechRecognition

/-- The function `speak`: nothing without the synthesis capability, otherwise
the queue is cancelled and the new utterance queued. -/
def speak (w : World) (text : JsValue) : World :=
  let w := { w with speakCalls := w.speakCalls ++ [text] }
  if !w.hasSpeechSynthesis then w
  else
    let w := { w with synthQueue := [] }
    { w with synthQueue := w.synthQueue ++ [text] }

/-- The function `clearUI`. -/
def clearUI (w : World) : World :=
  let w := { w with planList := [] }
  { w with actionsBox := [] }

/-- How a block of statements ends: normally, or by a thrown error, in either
case with the page as the statements left it. -/
inductive Completion where
  | normal (w : World) : Completion
  | thrown (e : JsError) (w : World) : Completion

/-- The function `renderPlan`.  `steps.forEach` exists only on an array; on any
other truthy value with a non-zero `length` the call throws a `TypeError`. -/
def renderPlan (w : World) (steps : JsValue) : Completion :=
  let w := { w with planList := [] }
  if !truthy steps || lengthIsZero steps then .normal w
  else
    match steps with
    | .arr items =>
      .normal (items.foldl (fun w s => { w with planList := w.planList ++ [s] }) w)
    | _ => .thrown .typeError w

/-- The function `addActionItem`. -/
def addActionItem (w : World) (label : String) (url : JsValue) (type : String) : World :=
  let div : ActionItem :=
    { label := label
      badgeClass := "badge " ++ (if type = "safe" then "badge-good" else "badge-warn")
      badgeText := if type = "safe" then "safe" else "external"
      url := url }
  let w := { w with actionsBox := w.actionsBox ++ [div] }
  if w.autoRunActions then { w with opened := w.opened ++ [url] } else w

/-! ## The agent client -/

/-- How the awaited request settles: the promise of `fetch` rejects, or a
response arrives with its `ok` flag, its status and its body; `body = none` is a
body on which `res.json()` rejects. -/
inductive FetchOutcome where
  | rejected : FetchOutcome
  | response (ok : Bool) (status : Nat) (body : Option JsValue) : FetchOutcome

/-- The call `fetch('/api/agent.py', ...)` with body `{ query: text }`. -/
def fetchAgent (w : World) (text : String) : World :=
  { w with requests := w.requests ++ [{ url := "/api/agent.py", method := "POST", query := text }] }

/-- The synchronous prefix of `sendToAgent`: `clearUI()`, the transcript
display, then the request. -/
def sendToAgent_begin (w : World) (text : String) : World :=
  let w := clearUI w
  let w := { w with transcript := text }
  fetchAgent w text

/-- The `catch` block of `sendToAgent`. -/
def catchBlock (w : World) (e : JsError) : World :=
  let w := { w with errors := w.errors ++ [e] }
  speak w (.str "Sorry, I encountered an error.")

/-- Reading `data.k` inside the `try` block: a throw ends the block. -/
def readField (w : World) (data : JsValue) (k : String)
    (cont : World → JsValue → Completion) : Completion :=
  match getField data k with
  | .error e => .thrown e w
  | .ok v => cont w v

/-- The statements of the `try` block after `const data = await res.json()`. -/
def responseBlock (w : World) (data : JsValue) : Completion :=
  readField w data "steps" fun w steps =>
  match renderPlan w (jsOr steps (.arr [])) with
  | .thrown e w => .thrown e w
  | .normal w =>
    readField w data "speechResponse" fun w speechResponse =>
    let w := if truthy speechResponse then speak w speechResponse else w
    readField w data "telLink" fun w telLink =>
    let w := if truthy telLink then addActionItem w "Call via phone dialer" telLink "safe" else w
    readField w data "mapsUrl" fun w mapsUrl =>
    let w := if truthy mapsUrl then addActionItem w "Open Google Maps" mapsUrl "external" else w
    readField w data "calendarUrl" fun w calendarUrl =>
    let w := if truthy calendarUrl then addActionItem w "Add to Calendar" calendarUrl "external" else w
    readField w data "openUrl" fun w openUrl =>
    let w := if truthy openUrl then addActionItem w "Open link" openUrl "external" else w
    .normal w

/-- The continuation of `sendToAgent` once the request has settled.  Nothing is
read or written between the two `await`s, so they are taken in one step. -/
def sendToAgent_settle (w : World) : FetchOutcome → World
  | .rejected => catchBlock w .network
  | .response ok status body =>
    if !ok then catchBlock w (.agentHttp status)
    else
      let w := { w with jsonCalls := w.jsonCalls + 1 }
      match body with
      | none => catchBlock w .parse
      | some data =>
        match responseBlock w data with
        | .normal w => w
        | .thrown e w => catchBlock w e

/-- One submission run to completion: `sendToAgent(text)` with no other event
between the request and its outcome. -/
def sendToAgent (w : World) (text : String) (r : FetchOutcome) : World :=
  sendToAgent_settle (sendToAgent_begin w text) r

/-! ## The input controller -/

/-- One entry of `event.results`: the transcript of its first alternative and
its `isFinal` flag. -/
structure SpeechResult where
  transcript : String
  isFinal : Bool
  deriving DecidableEq, Repr

/-- A recognition result event. -/
structure ResultEvent where
  resultIndex : Nat
  results : List SpeechResult
  deriving DecidableEq, Repr

/-- The function `startListening`.  The closure variable `finalTranscript` of
the new session starts as the empty string; the handlers below take it as an
argument. -/
def startListening (w : World) : World :=
  if !supportsSpeechRecognition w then
    speak w (.str "Microphone not supported. Please type your command.")
  else
    let id := w.recognitionsCreated
    let w := { w with recognition := some id, recognitionsCreated := id + 1 }
    let w := { w with startCalls := w.startCalls ++ [id] }
    let w := { w with isListening := true }
    let w := { w with listenBtnDisabled := true }
    { w with stopBtnDisabled := false }

/-- The loop of `recognition.onresult`: from `resultIndex` on, final transcripts
are appended to `finalTranscript`, the others to `interim`.  The result is the
pair `(finalTranscript, interim)`. -/
def resultLoop (finalTranscript : String) (ev : ResultEvent) : String × String :=
  (ev.results.drop ev.resultIndex).foldl
    (fun acc r =>
      if r.isFinal then (acc.1 ++ r.transcript, acc.2) else (acc.1, acc.2 ++ r.transcript))
    (finalTranscript, "")

/-- The handler `recognition.onresult`; it returns the new `finalTranscript`. -/
def recognition_onresult (finalTranscript : String) (w : World) (ev : ResultEvent) :
    String × World :=
  let r := resultLoop finalTranscript ev
  (r.1, { w with transcript := if r.1 != "" then r.1 else r.2 })

/-- The function `stopListening`. -/
def stopListening (w : World) : World :=
  match w.recognition with
  | some id => if w.isListening then { w with stopCalls := w.stopCalls ++ [id] } else w
  | none => w

/-- The handler `recognition.onerror`. -/
def recognition_onerror (w : World) : World :=
  let w := { w with errors := w.errors ++ [.speech] }
  stopListening w

/-- The handler `recognition.onend`, up to the call of `fetch` inside
`sendToAgent`. -/
def recognition_onend (w : World) : World :=
  let w := { w with isListening := false }
  let w := { w with listenBtnDisabled := false }
  let w := { w with stopBtnDisabled := true }
  let text := jsTrim (orEmpty w.transcript)
  if text != "" then sendToAgent_begin w text else w

/-- The click handler of the send button. -/
def sendText_click (w : World) : World :=
  let text := jsTrim (orEmpty w.textInput)
  if text != "" then sendToAgent_begin w text else w

/-- The `keydown` handler of the text field; `key` is `e.key`. -/
def textInput_keydown (w : World) (key : String) : World :=
  if key = "Enter" then
    let text := jsTrim (orEmpty w.textInput)
    if text != "" then sendToAgent_begin w text else w
  else w

/-- The result events of one session, handled in order from the empty
`finalTranscript`. -/
def sessionResults (w : World) (evs : List ResultEvent) : String × World :=
  evs.foldl (fun acc ev => recognition_onresult acc.1 acc.2 ev) ("", w)

/-- A voice session: its result events, then the end event. -/
def voiceSession (w : World) (evs : List ResultEvent) : World :=
  recognition_onend (sessionResults w evs).2

/-- A recognition error in the platform: `onerror` runs, and the end event that
follows `recognition.stop()` runs `onend`. -/
def errorThenEnd (w : World) : World :=
  recognition_onend (recognition_onerror w)

/-- The transcripts of the final results an event delivers (from `resultIndex`
on), concatenated. -/
def finalText (ev : ResultEvent) : String :=
  String.join (((ev.results.drop ev.resultIndex).filter (·.isFinal)).map (·.transcript))

/-- The transcripts of the results an event delivers that are not final,
concatenated. -/
def interimText (ev : ResultEvent) : String :=
  String.join (((ev.results.drop ev.resultIndex).filter (fun r => !r.isFinal)).map (·.transcript))

/-- The accumulated final transcript of a session. -/
def sessionFinal (evs : List ResultEvent) : String :=
  String.join (evs.map finalText)


/-! ## Reading the response: auxiliary descriptions -/

/-- The value the `try` block sees for `data.k` when the read does not throw. -/
def fieldOr (data : JsValue) (k : String) : JsValue :=
  match getField data k with
  | .ok v => v
  | .error _ => .undefined

/-- Whether a value is `null` or `undefined`. -/
def nullish : JsValue → Bool
  | .undefined => true
  | .null => true
  | _ => false

/-- Whether a value is an array. -/
def isArr : JsValue → Bool
  | .arr _ => true
  | _ => false

/-- The elements of an array value, none for any other value. -/
def elems : JsValue → List JsValue
  | .arr items => items
  | _ => []

/-- Whether the `try` block runs to its end on a parsed body: the body is not
`null`, and `renderPlan(data.steps || [])` does not throw. -/
def completes (data : JsValue) : Bool :=
  !nullish data &&
    (lengthIsZero (jsOr (fieldOr data "steps") (.arr [])) ||
      isArr (jsOr (fieldOr data "steps") (.arr [])))

/-- Whether `renderPlan(data.steps || [])` is reached and returns, read off the
body: the body is not `null`, and `data.steps` is falsy, or an array, or has
`length` 0. -/
def planRenders (data : JsValue) : Bool :=
  !nullish data &&
    (!truthy (fieldOr data "steps") || isArr (fieldOr data "steps") ||
      lengthIsZero (fieldOr data "steps"))

/-- The element `addActionItem(label, url, type)` appends for a link value, if
the value is truthy. -/
def linkItem (label type : String) (url : JsValue) : List ActionItem :=
  if truthy url then
    [{ label := label
       badgeClass := "badge " ++ (if type = "safe" then "badge-good" else "badge-warn")
       badgeText := if type = "safe" then "safe" else "external"
       url := url }]
  else []

/-- The action items of a body, in statement order. -/
def linkItems (data : JsValue) : List ActionItem :=
  linkItem "Call via phone dialer" "safe" (fieldOr data "telLink") ++
  linkItem "Open Google Maps" "external" (fieldOr data "mapsUrl") ++
  linkItem "Add to Calendar" "external" (fieldOr data "calendarUrl") ++
  linkItem "Open link" "external" (fieldOr data "openUrl")

/-- The plan items of a body on which the `try` block runs to its end. -/
def planItems (data : JsValue) : List JsValue :=
  if lengthIsZero (jsOr (fieldOr data "steps") (.arr [])) then []
  else elems (jsOr (fieldOr data "steps") (.arr []))

/-- The speech of a body: `data.speechResponse` when truthy. -/
def speechOf (data : JsValue) : List JsValue :=
  if truthy (fieldOr data "speechResponse") then [fieldOr data "speechResponse"] else []

/-- The request `sendToAgent(text)` issues. -/
def agentRequest (text : String) : Request :=
  { url := "/api/agent.py", method := "POST", query := text }

/-- The labels of the four action items, in the order of the statements that
add them: phone, maps, calendar, generic. -/
def actionOrder : List String :=
  ["Call via phone dialer", "Open Google Maps", "Add to Calendar", "Open link"]

/-- The four link fields of a body, each with the label of its action item. -/
def linkFields : List (String × String) :=
  [("telLink", "Call via phone dialer"), ("mapsUrl", "Open Google Maps"),
   ("calendarUrl", "Add to Calendar"), ("openUrl", "Open link")]

/-- The number of the four link fields of a body with a truthy value. -/
def truthyLinks (data : JsValue) : Nat :=
  (["telLink", "mapsUrl", "calendarUrl", "openUrl"].filter
    (fun k => truthy (fieldOr data k))).length

/-! ## Concrete pages, bodies and sessions -/

/-- A freshly loaded page: nothing rendered, nothing logged, recognition and
synthesis both available, auto-run off. -/
def idlePage : World :=
  { hasSpeechSynthesis := true, hasWebkitSpeechRecognition := true,
    hasSpeechRecognition := false, transcript := "", planList := [], actionsBox := [],
    textInput := "", autoRunActions := false, listenBtnDisabled := false,
    stopBtnDisabled := true, recognition := none, isListening := false,
    recognitionsCreated := 0, startCalls := [], stopCalls := [], speakCalls := [],
    synthQueue := [], opened := [], errors := [], requests := [], jsonCalls := 0 }

/-- A page that still shows an earlier response, with auto-run on. -/
def usedPage : World :=
  { idlePage with
    transcript := "earlier request"
    planList := [.str "old step"]
    actionsBox := [{ label := "Open link", badgeClass := "badge badge-warn",
                     badgeText := "external", url := .str "https://old/" }]
    autoRunActions := true }

/-- The fields of the example response of the specification. -/
def pharmacyFields : List (String × JsValue) :=
  [("steps", .arr [.str "Find nearest pharmacy", .str "Call ahead"]),
   ("telLink", .str "tel:+1555"),
   ("mapsUrl", .str "https://maps/x")]

/-- The body of the example response of the specification. -/
def pharmacyBody : JsValue := .obj pharmacyFields

/-- The fields of `pharmacyBody` in another order. -/
def pharmacyFieldsReordered : List (String × JsValue) :=
  [("mapsUrl", .str "https://maps/x"),
   ("telLink", .str "tel:+1555"),
   ("steps", .arr [.str "Find nearest pharmacy", .str "Call ahead"])]

/-- A body whose `steps` is a string, not an array. -/
def malformedStepsBody : JsValue :=
  .obj [("steps", .str "abc"), ("telLink", .str "tel:1")]

/-- A body whose `steps` is `null`. -/
def nullStepsBody : JsValue :=
  .obj [("steps", .null), ("telLink", .str "tel:1"), ("mapsUrl", .str ""),
        ("speechResponse", .str "")]

/-- A session whose only result is an interim one. -/
def interimOnlySession : List ResultEvent :=
  [{ resultIndex := 0, results := [{ transcript := "hello", isFinal := false }] }]

/-- A session with one interim result that then becomes final. -/
def finalisedSession : List ResultEvent :=
  [{ resultIndex := 0, results := [{ transcript := "call", isFinal := false }] },
   { resultIndex := 0, results := [{ transcript := "call mom", isFinal := true }] }]

/-- The page in the middle of a listening session, after a final result
"call mom" has been displayed. -/
def listeningPage : World :=
  (sessionResults (startListening idlePage) finalisedSession).2

end AgentUI

/-! # Lemmas -/

namespace AgentUI

theorem foldl_plan (items : List JsValue) (w : World) :
    items.foldl (fun w s => { w with planList := w.planList ++ [s] }) w
      = { w with planList := w.planList ++ items } := by
  induction items generalizing w with
  | nil => simp
  | cons a t ih => simp [ih]

/-- The `try` block on a body that is not `null`: no field read throws. -/
theorem responseBlock_eq (w : World) (data : JsValue) (hn : nullish data = false) :
    responseBlock w data =
      match renderPlan w (jsOr (fieldOr data "steps") (.arr [])) with
      | .thrown e w => .thrown e w
      | .normal w =>
        let w := if truthy (fieldOr data "speechResponse") then
          speak w (fieldOr data "speechResponse") else w
        let w := if truthy (fieldOr data "telLink") then
          addActionItem w "Call via phone dialer" (fieldOr data "telLink") "safe" else w
        let w := if truthy (fieldOr data "mapsUrl") then
          addActionItem w "Open Google Maps" (fieldOr data "mapsUrl") "external" else w
        let w := if truthy (fieldOr data "calendarUrl") then
          addActionItem w "Add to Calendar" (fieldOr data "calendarUrl") "external" else w
        let w := if truthy (fieldOr data "openUrl") then
          addActionItem w "Open link" (fieldOr data "openUrl") "external" else w
        .normal w := by
  cases data <;> simp [nullish] at hn <;>
    simp only [responseBlock, readField, getField, fieldOr]

theorem truthy_jsOr (v : JsValue) : truthy (jsOr v (.arr [])) = true := by
  unfold jsOr; split <;> simp_all [truthy]

/-- The two ways `renderPlan` ends on a truthy argument. -/
theorem renderPlan_cases (w : World) (steps : JsValue) (ht : truthy steps = true) :
    renderPlan w steps =
      if lengthIsZero steps || isArr steps then
        .normal { w with planList := if lengthIsZero steps then [] else elems steps }
      else .thrown .typeError { w with planList := [] } := by
  cases steps <;> simp_all [renderPlan, truthy, lengthIsZero, isArr, elems, foldl_plan]
  · rename_i items
    cases items <;> simp

/-! ## Frame lemmas: what `speak` and a guarded `addActionItem` leave alone -/

section Frame
variable (w : World) (l t : String) (u : JsValue)

theorem add_actionsBox : (if truthy u = true then addActionItem w l u t else w).actionsBox
    = w.actionsBox ++ linkItem l t u := by
  cases h1 : truthy u <;> cases h2 : w.autoRunActions <;> simp [addActionItem, linkItem, h1, h2]

theorem add_planList : (if truthy u = true then addActionItem w l u t else w).planList
    = w.planList := by
  cases h1 : truthy u <;> cases h2 : w.autoRunActions <;> simp [addActionItem, h1, h2]

theorem add_errors : (if truthy u = true then addActionItem w l u t else w).errors
    = w.errors := by
  cases h1 : truthy u <;> cases h2 : w.autoRunActions <;> simp [addActionItem, h1, h2]

theorem add_speakCalls : (if truthy u = true then addActionItem w l u t else w).speakCalls
    = w.speakCalls := by
  cases h1 : truthy u <;> cases h2 : w.autoRunActions <;> simp [addActionItem, h1, h2]

theorem add_autoRunActions :
    (if truthy u = true then addActionItem w l u t else w).autoRunActions
    = w.autoRunActions := by
  cases h1 : truthy u <;> cases h2 : w.autoRunActions <;> simp [addActionItem, h1, h2]

theorem add_opened : (if truthy u = true then addActionItem w l u t else w).opened
    = w.opened ++ (if w.autoRunActions = true then (linkItem l t u).map (·.url) else []) := by
  cases h1 : truthy u <;> cases h2 : w.autoRunActions <;> simp [addActionItem, linkItem, h1, h2]

theorem speak_actionsBox : (speak w u).actionsBox = w.actionsBox := by
  cases h : w.hasSpeechSynthesis <;> simp [speak, h]

theorem speak_planList : (speak w u).planList = w.planList := by
  cases h : w.hasSpeechSynthesis <;> simp [speak, h]

theorem speak_errors : (speak w u).errors = w.errors := by
  cases h : w.hasSpeechSynthesis <;> simp [speak, h]

theorem speak_opened : (speak w u).opened = w.opened := by
  cases h : w.hasSpeechSynthesis <;> simp [speak, h]

theorem speak_autoRunActions : (speak w u).autoRunActions = w.autoRunActions := by
  cases h : w.hasSpeechSynthesis <;> simp [speak, h]

theorem speak_jsonCalls : (speak w u).jsonCalls = w.jsonCalls := by
  cases h : w.hasSpeechSynthesis <;> simp [speak, h]

theorem speak_requests : (speak w u).requests = w.requests := by
  cases h : w.hasSpeechSynthesis <;> simp [speak, h]

theorem speak_speakCalls : (speak w u).speakCalls = w.speakCalls ++ [u] := by
  cases h : w.hasSpeechSynthesis <;> simp [speak, h]

theorem say_actionsBox : (if truthy u = true then speak w u else w).actionsBox
    = w.actionsBox := by
  split <;> simp [speak_actionsBox]

theorem say_planList : (if truthy u = true then speak w u else w).planList = w.planList := by
  split <;> simp [speak_planList]

theorem say_errors : (if truthy u = true then speak w u else w).errors = w.errors := by
  split <;> simp [speak_errors]

theorem say_opened : (if truthy u = true then speak w u else w).opened = w.opened := by
  split <;> simp [speak_opened]

theorem say_autoRunActions : (if truthy u = true then speak w u else w).autoRunActions
    = w.autoRunActions := by
  split <;> simp [speak_autoRunActions]

theorem say_speakCalls : (if truthy u = true then speak w u else w).speakCalls
    = w.speakCalls ++ (if truthy u = true then [u] else []) := by
  split <;> simp [speak_speakCalls]

end Frame

/-- The page after a parsed body on which the `try` block runs to its end. -/
theorem settle_completes (w : World) (status : Nat) (data : JsValue)
    (h : completes data = true) :
    (sendToAgent_settle w (.response true status (some data))).actionsBox
        = w.actionsBox ++ linkItems data ∧
    (sendToAgent_settle w (.response true status (some data))).planList = planItems data ∧
    (sendToAgent_settle w (.response true status (some data))).errors = w.errors ∧
    (sendToAgent_settle w (.response true status (some data))).speakCalls
        = w.speakCalls ++ speechOf data ∧
    (sendToAgent_settle w (.response true status (some data))).opened
        = w.opened ++ (if w.autoRunActions then (linkItems data).map (·.url) else []) := by
  simp only [completes, Bool.and_eq_true, Bool.not_eq_true'] at h
  obtain ⟨hn, hp⟩ := h
  simp only [sendToAgent_settle, responseBlock_eq _ _ hn,
    renderPlan_cases _ _ (truthy_jsOr _), hp]
  simp only [add_actionsBox, add_planList, add_errors, add_speakCalls, add_autoRunActions, add_opened, Bool.not_true, Bool.false_eq_true, if_false, if_true]
  simp only [say_actionsBox, say_planList, say_errors, say_opened, say_autoRunActions,
    say_speakCalls, linkItems, planItems, speechOf, List.append_assoc, List.map_append]
  refine ⟨trivial, trivial, trivial, trivial, ?_⟩
  cases w.autoRunActions <;> simp


/-! ## One submission run to completion -/
theorem catch_fields (w : World) (e : JsError) :
    (catchBlock w e).actionsBox = w.actionsBox ∧ (catchBlock w e).planList = w.planList ∧
    (catchBlock w e).errors = w.errors ++ [e] ∧
    (catchBlock w e).speakCalls = w.speakCalls ++ [.str "Sorry, I encountered an error."] ∧
    (catchBlock w e).opened = w.opened ∧ (catchBlock w e).jsonCalls = w.jsonCalls := by
  simp [catchBlock, speak_actionsBox, speak_planList, speak_errors, speak_speakCalls,
    speak_opened, speak_jsonCalls]

theorem begin_fields (w : World) (text : String) :
    (sendToAgent_begin w text).actionsBox = [] ∧ (sendToAgent_begin w text).planList = [] ∧
    (sendToAgent_begin w text).errors = w.errors ∧
    (sendToAgent_begin w text).speakCalls = w.speakCalls ∧
    (sendToAgent_begin w text).opened = w.opened ∧
    (sendToAgent_begin w text).jsonCalls = w.jsonCalls ∧
    (sendToAgent_begin w text).autoRunActions = w.autoRunActions ∧
    (sendToAgent_begin w text).transcript = text ∧
    (sendToAgent_begin w text).requests = w.requests ++ [agentRequest text] := by
  simp [sendToAgent_begin, clearUI, fetchAgent, agentRequest]

/-- A parsed body on which the `try` block runs to its end: what is rendered,
spoken and opened. -/
theorem run_completes (w : World) (text : String) (status : Nat) (data : JsValue)
    (h : completes data = true) :
    (sendToAgent w text (.response true status (some data))).actionsBox = linkItems data ∧
    (sendToAgent w text (.response true status (some data))).planList = planItems data ∧
    (sendToAgent w text (.response true status (some data))).errors = w.errors ∧
    (sendToAgent w text (.response true status (some data))).speakCalls
        = w.speakCalls ++ speechOf data ∧
    (sendToAgent w text (.response true status (some data))).opened
        = w.opened ++ (if w.autoRunActions then (linkItems data).map (·.url) else []) := by
  obtain ⟨h1, h2, h3, h4, h5⟩ := settle_completes (sendToAgent_begin w text) status data h
  obtain ⟨b1, b2, b3, b4, b5, b6, b7, b8, b9⟩ := begin_fields w text
  unfold sendToAgent
  rw [h1, h2, h3, h4, h5, b1, b3, b4, b5, b7]
  simp

/-- A parsed body on which the `try` block throws: nothing is rendered, the
error is logged and the apology spoken. -/
theorem run_throws (w : World) (text : String) (status : Nat) (data : JsValue)
    (h : completes data = false) :
    (sendToAgent w text (.response true status (some data))).actionsBox = [] ∧
    (sendToAgent w text (.response true status (some data))).planList = [] ∧
    (sendToAgent w text (.response true status (some data))).errors
        = w.errors ++ [.typeError] ∧
    (sendToAgent w text (.response true status (some data))).speakCalls
        = w.speakCalls ++ [.str "Sorry, I encountered an error."] ∧
    (sendToAgent w text (.response true status (some data))).opened = w.opened := by
  obtain ⟨b1, b2, b3, b4, b5, b6, b7, b8, b9⟩ := begin_fields w text
  unfold sendToAgent
  cases hn : nullish data with
  | true =>
    have hr : ∀ v : World, responseBlock v data = .thrown .typeError v := by
      intro v
      cases data <;> simp [nullish] at hn <;> simp [responseBlock, readField, getField]
    simp only [sendToAgent_settle, hr, Bool.not_true, Bool.false_eq_true, if_false]
    obtain ⟨c1, c2, c3, c4, c5, c6⟩ :=
      catch_fields { sendToAgent_begin w text with
        jsonCalls := (sendToAgent_begin w text).jsonCalls + 1 } .typeError
    rw [c1, c2, c3, c4, c5]
    simp [b1, b2, b3, b4, b5]
  | false =>
    have hp : (lengthIsZero (jsOr (fieldOr data "steps") (.arr [])) ||
        isArr (jsOr (fieldOr data "steps") (.arr []))) = false := by
      simpa [completes, hn] using h
    simp only [sendToAgent_settle, responseBlock_eq _ _ hn,
      renderPlan_cases _ _ (truthy_jsOr _), hp, Bool.not_true, Bool.false_eq_true, if_false]
    obtain ⟨c1, c2, c3, c4, c5, c6⟩ :=
      catch_fields { sendToAgent_begin w text with
        jsonCalls := (sendToAgent_begin w text).jsonCalls + 1, planList := [] } .typeError
    rw [c1, c2, c3, c4, c5]
    simp [b1, b2, b3, b4, b5]

/-- A request that does not yield a parsed body (the promise rejects, the
status is not a success, or the body does not parse): nothing is rendered or
opened, the apology is spoken once. -/
theorem run_fails (w : World) (text : String) (r : FetchOutcome)
    (h : r = .rejected ∨ (∃ status body, r = .response false status body) ∨
      (∃ status, r = .response true status none)) :
    (sendToAgent w text r).actionsBox = [] ∧ (sendToAgent w text r).planList = [] ∧
    (sendToAgent w text r).speakCalls
        = w.speakCalls ++ [.str "Sorry, I encountered an error."] ∧
    (sendToAgent w text r).opened = w.opened := by
  obtain ⟨b1, b2, b3, b4, b5, b6, b7, b8, b9⟩ := begin_fields w text
  unfold sendToAgent
  rcases h with rfl | ⟨status, body, rfl⟩ | ⟨status, rfl⟩
  · obtain ⟨c1, c2, c3, c4, c5, c6⟩ := catch_fields (sendToAgent_begin w text) .network
    simp only [sendToAgent_settle]
    rw [c1, c2, c4, c5]; simp [b1, b2, b4, b5]
  · obtain ⟨c1, c2, c3, c4, c5, c6⟩ :=
      catch_fields (sendToAgent_begin w text) (.agentHttp status)
    simp only [sendToAgent_settle, Bool.not_false, if_true]
    rw [c1, c2, c4, c5]; simp [b1, b2, b4, b5]
  · obtain ⟨c1, c2, c3, c4, c5, c6⟩ :=
      catch_fields { sendToAgent_begin w text with
        jsonCalls := (sendToAgent_begin w text).jsonCalls + 1 } .parse
    simp only [sendToAgent_settle, Bool.not_true, Bool.false_eq_true, if_false]
    rw [c1, c2, c4, c5]; simp [b1, b2, b4, b5]


/-! ## Trimming -/
theorem orEmpty_eq (s : String) : orEmpty s = s := by
  unfold orEmpty
  by_cases h : s = "" <;> simp [h]

theorem trimChars_eq_nil (cs : List Char) :
    trimChars cs = [] ↔ ∀ c ∈ cs, isJsWhiteSpace c = true := by
  unfold trimChars
  rw [List.reverse_eq_nil_iff, List.dropWhile_eq_nil_iff]
  constructor
  · intro h
    rw [← List.dropWhile_eq_nil_iff]
    cases hd : cs.dropWhile isJsWhiteSpace with
    | nil => rfl
    | cons a t =>
      have ha : isJsWhiteSpace a = true := h a (by simp [hd])
      have hna := List.head_dropWhile_not isJsWhiteSpace cs (by simp [hd])
      simp [hd, ha] at hna
  · intro h x hx
    rw [List.mem_reverse] at hx
    exact h x ((List.dropWhile_sublist _).subset hx)

/-- Trimming gives the empty string exactly on strings of white space. -/
theorem jsTrim_eq_empty (s : String) :
    jsTrim s = "" ↔ ∀ c ∈ s.data, isJsWhiteSpace c = true := by
  rw [← trimChars_eq_nil]
  unfold jsTrim
  constructor
  · intro h
    have := congrArg String.data h
    simpa using this
  · intro h
    rw [h]

/-! ## Field lookup -/
/-- Reordering the fields of an object with distinct keys does not change a lookup. -/
theorem lookupField_perm {l l' : List (String × JsValue)} (h : l.Perm l')
    (nd : (l.map Prod.fst).Nodup) (k : String) : lookupField k l = lookupField k l' := by
  induction h with
  | nil => rfl
  | cons x _ ih =>
    simp only [List.map_cons, List.nodup_cons] at nd
    simp [lookupField, ih nd.2]
  | swap x y l =>
    simp only [List.map_cons, List.nodup_cons, List.mem_cons, not_or] at nd
    obtain ⟨⟨hxy, _⟩, _⟩ := nd
    simp only [lookupField]
    by_cases hx : x.1 = k <;> by_cases hy : y.1 = k <;> simp [hx, hy]
    exact absurd (hy.trans hx.symm) hxy
  | trans h1 _ ih1 ih2 =>
    rw [ih1 nd, ih2 ((h1.map Prod.fst).nodup_iff.mp nd)]

/-! ## The listening session -/
theorem loop_fold (rs : List SpeechResult) (a b : String) :
    rs.foldl
      (fun acc r =>
        if r.isFinal then (acc.1 ++ r.transcript, acc.2) else (acc.1, acc.2 ++ r.transcript))
      (a, b)
    = (a ++ String.join ((rs.filter (·.isFinal)).map (·.transcript)),
       b ++ String.join ((rs.filter (fun r => !r.isFinal)).map (·.transcript))) := by
  induction rs generalizing a b with
  | nil => simp [String.join]
  | cons r t ih =>
    cases hr : r.isFinal
    · simp only [List.foldl_cons, hr, Bool.false_eq_true, if_false, ih]
      refine Prod.ext ?_ (String.ext ?_) <;> simp [hr, List.filter_cons]
    · simp only [List.foldl_cons, hr, if_true, ih]
      refine Prod.ext (String.ext ?_) ?_ <;> simp [hr, List.filter_cons]

/-- The loop of `onresult` appends the final transcripts of the event and
collects the interim ones. -/
theorem resultLoop_eq (f : String) (ev : ResultEvent) :
    resultLoop f ev = (f ++ finalText ev, interimText ev) := by
  simp [resultLoop, loop_fold, finalText, interimText]

theorem sessionFinal_append (evs : List ResultEvent) (ev : ResultEvent) :
    sessionFinal (evs ++ [ev]) = sessionFinal evs ++ finalText ev := by
  apply String.ext
  simp [sessionFinal]

theorem sessionResults_snoc (w : World) (evs : List ResultEvent) (ev : ResultEvent) :
    sessionResults w (evs ++ [ev])
      = recognition_onresult (sessionResults w evs).1 (sessionResults w evs).2 ev := by
  simp only [sessionResults, List.foldl_append, List.foldl_cons, List.foldl_nil]

/-- After the result events of a session the closure variable holds the
accumulated final transcript, and only the display has changed. -/
theorem sessionResults_fields (w : World) (evs : List ResultEvent) :
    (sessionResults w evs).1 = sessionFinal evs ∧
    (sessionResults w evs).2.requests = w.requests ∧
    (sessionResults w evs).2.isListening = w.isListening ∧
    (sessionResults w evs).2.recognition = w.recognition := by
  induction evs using List.reverseRecOn with
  | nil => simp [sessionResults, sessionFinal, String.join]
  | append_singleton evs ev ih =>
    obtain ⟨h1, h2, h3, h4⟩ := ih
    rw [sessionResults_snoc]
    simp only [recognition_onresult, resultLoop_eq, h1, h2, h3, h4, sessionFinal_append,
      and_self]

theorem sessionResults_transcript (w : World) (evs : List ResultEvent) (ev : ResultEvent) :
    (sessionResults w (evs ++ [ev])).2.transcript
      = if sessionFinal (evs ++ [ev]) != "" then sessionFinal (evs ++ [ev])
        else interimText ev := by
  obtain ⟨h1, _⟩ := sessionResults_fields w evs
  rw [sessionResults_snoc]
  simp only [recognition_onresult, resultLoop_eq, h1, sessionFinal_append]

/-- The end handler: idle controls, and a request exactly for a non-empty
trimmed display. -/
theorem onend_fields (w : World) :
    (recognition_onend w).isListening = false ∧
    (recognition_onend w).listenBtnDisabled = false ∧
    (recognition_onend w).stopBtnDisabled = true ∧
    (recognition_onend w).requests
      = w.requests ++ (if jsTrim w.transcript != "" then [agentRequest (jsTrim w.transcript)]
                       else []) := by
  unfold recognition_onend
  simp only [orEmpty_eq]
  cases h : jsTrim w.transcript != "" <;>
    simp [h, sendToAgent_begin, clearUI, fetchAgent, agentRequest]

end AgentUI

/-! # The claims -/

namespace AgentUI

/-- C1: when the trimmed text is empty, none of the three submission entry
points (send-button click, Enter keydown, recognition end) issues a request;
when it is not empty each of them calls `sendToAgent` with the trimmed text, so
exactly that request is issued.  A key other than Enter never submits, and the
trimmed text is empty exactly when every character is white space. -/
theorem C1_empty_text_sends_nothing (w : World) (key : String) :
    (jsTrim w.textInput = "" → sendText_click w = w ∧ textInput_keydown w key = w) ∧
    (jsTrim w.transcript = "" → (recognition_onend w).requests = w.requests) ∧
    (jsTrim w.textInput ≠ "" →
      sendText_click w = sendToAgent_begin w (jsTrim w.textInput) ∧
      textInput_keydown w "Enter" = sendToAgent_begin w (jsTrim w.textInput) ∧
      (sendText_click w).requests = w.requests ++ [agentRequest (jsTrim w.textInput)] ∧
      (textInput_keydown w "Enter").requests
        = w.requests ++ [agentRequest (jsTrim w.textInput)]) ∧
    (jsTrim w.transcript ≠ "" →
      (recognition_onend w).requests = w.requests ++ [agentRequest (jsTrim w.transcript)]) ∧
    (key ≠ "Enter" → textInput_keydown w key = w) ∧
    (∀ s : String, jsTrim s = "" ↔ ∀ c ∈ s.data, isJsWhiteSpace c = true) := by
  refine ⟨?_, ?_, ?_, ?_, ?_, jsTrim_eq_empty⟩
  · intro h
    constructor
    · simp [sendText_click, orEmpty_eq, h]
    · unfold textInput_keydown
      split <;> simp [orEmpty_eq, h]
  · intro h
    rw [(onend_fields w).2.2.2]
    simp [h]
  · intro h
    have hb := (begin_fields w (jsTrim w.textInput)).2.2.2.2.2.2.2.2
    have h1 : sendText_click w = sendToAgent_begin w (jsTrim w.textInput) := by
      simp [sendText_click, orEmpty_eq, h]
    have h2 : textInput_keydown w "Enter" = sendToAgent_begin w (jsTrim w.textInput) := by
      simp [textInput_keydown, orEmpty_eq, h]
    exact ⟨h1, h2, by rw [h1, hb], by rw [h2, hb]⟩
  · intro h
    rw [(onend_fields w).2.2.2]
    simp [h]
  · intro h
    simp [textInput_keydown, h]

/-- C1, at a page whose text field and transcript hold only white space, and at
a page where they hold text with white space around it. -/
theorem C1_empty_text_sends_nothing_witness :
    (sendText_click { idlePage with textInput := " \t ", transcript := "\n " }
        = { idlePage with textInput := " \t ", transcript := "\n " }) ∧
    (recognition_onend { idlePage with textInput := " \t ", transcript := "\n " }).requests
        = [] ∧
    (sendText_click { idlePage with textInput := "  call mom ", transcript := " hi\n" }).requests
        = [agentRequest "call mom"] ∧
    (recognition_onend { idlePage with textInput := "  call mom ", transcript := " hi\n" }).requests
        = [agentRequest "hi"] ∧
    textInput_keydown { idlePage with textInput := "  call mom ", transcript := " hi\n" } "a"
        = { idlePage with textInput := "  call mom ", transcript := " hi\n" } :=
  ⟨((C1_empty_text_sends_nothing
        { idlePage with textInput := " \t ", transcript := "\n " } "Enter").1 (by decide)).1,
   (C1_empty_text_sends_nothing
        { idlePage with textInput := " \t ", transcript := "\n " } "Enter").2.1 (by decide),
   ((C1_empty_text_sends_nothing
        { idlePage with textInput := "  call mom ", transcript := " hi\n" } "a").2.2.1
        (by decide)).2.2.1,
   (C1_empty_text_sends_nothing
        { idlePage with textInput := "  call mom ", transcript := " hi\n" } "a").2.2.2.1
        (by decide),
   (C1_empty_text_sends_nothing
        { idlePage with textInput := "  call mom ", transcript := " hi\n" } "a").2.2.2.2.1
        (by decide)⟩

/-- C2: for every submitted text and every response whose `ok` flag is false,
the run of `sendToAgent` ends with an empty plan list and an empty action box,
opens no link, calls `speak` exactly once, with the apology text, logs the
error, and never calls `res.json()`. -/
theorem C2_failed_status (w : World) (text : String) (status : Nat) (body : Option JsValue) :
    (sendToAgent w text (.response false status body)).planList = [] ∧
    (sendToAgent w text (.response false status body)).actionsBox = [] ∧
    (sendToAgent w text (.response false status body)).opened = w.opened ∧
    (sendToAgent w text (.response false status body)).speakCalls
      = w.speakCalls ++ [.str "Sorry, I encountered an error."] ∧
    (sendToAgent w text (.response false status body)).jsonCalls = w.jsonCalls ∧
    (sendToAgent w text (.response false status body)).errors
      = w.errors ++ [.agentHttp status] := by
  obtain ⟨b1, b2, b3, b4, b5, b6, b7, b8, b9⟩ := begin_fields w text
  obtain ⟨c1, c2, c3, c4, c5, c6⟩ := catch_fields (sendToAgent_begin w text) (.agentHttp status)
  simp only [sendToAgent, sendToAgent_settle, Bool.not_false, if_true]
  rw [c1, c2, c3, c4, c5, c6, b1, b2, b3, b4, b5, b6]
  simp


theorem linkItem_labels (l t : String) (u : JsValue) :
    ((linkItem l t u).map (·.label)).Sublist [l] := by
  unfold linkItem
  split <;> simp

theorem linkItems_labels (data : JsValue) :
    ((linkItems data).map (·.label)).Sublist actionOrder := by
  have h : actionOrder = ["Call via phone dialer"] ++ ["Open Google Maps"] ++
      ["Add to Calendar"] ++ ["Open link"] := rfl
  rw [h]
  simp only [linkItems, List.map_append]
  exact (((linkItem_labels _ _ _).append (linkItem_labels _ _ _)).append
    (linkItem_labels _ _ _)).append (linkItem_labels _ _ _)

theorem getField_perm {l l' : List (String × JsValue)} (h : l.Perm l')
    (nd : (l.map Prod.fst).Nodup) (k : String) :
    getField (.obj l) k = getField (.obj l') k := by
  simp only [getField, lookupField_perm h nd k]

/-- C3: for every successful response the labels of the rendered action items
form a subsequence of phone, maps, calendar, generic; the page after the run is
the same for any two orders of the fields of the response object; and the
example response yields exactly the phone item followed by the maps item. -/
theorem C3_action_order (w : World) (text : String) (status : Nat) :
    (∀ body : Option JsValue,
      ((sendToAgent w text (.response true status body)).actionsBox.map (·.label)).Sublist
        actionOrder) ∧
    (∀ fields fields' : List (String × JsValue),
      fields.Perm fields' → (fields.map Prod.fst).Nodup →
      sendToAgent w text (.response true status (some (.obj fields)))
        = sendToAgent w text (.response true status (some (.obj fields')))) ∧
    (sendToAgent w text (.response true status (some pharmacyBody))).actionsBox
      = [{ label := "Call via phone dialer", badgeClass := "badge badge-good",
           badgeText := "safe", url := .str "tel:+1555" },
         { label := "Open Google Maps", badgeClass := "badge badge-warn",
           badgeText := "external", url := .str "https://maps/x" }] := by
  refine ⟨?_, ?_, ?_⟩
  · intro body
    cases body with
    | none => rw [(run_fails w text _ (Or.inr (Or.inr ⟨status, rfl⟩))).1]; simp
    | some data =>
      cases h : completes data with
      | true => rw [(run_completes w text status data h).1]; exact linkItems_labels data
      | false => rw [(run_throws w text status data h).1]; simp
  · intro fields fields' hp nd
    have hg := getField_perm hp nd
    simp only [sendToAgent, sendToAgent_settle, responseBlock, readField, hg]
  · rw [(run_completes w text status pharmacyBody (by decide)).1]
    rfl

/-- C3, at the fields of the example response in two orders. -/
theorem C3_action_order_witness :
    sendToAgent usedPage "x"
        (.response true 200 (some (.obj pharmacyFieldsReordered)))
      = sendToAgent usedPage "x" (.response true 200 (some pharmacyBody)) :=
  (C3_action_order usedPage "x" 200).2.1 pharmacyFieldsReordered pharmacyFields
    (show pharmacyFieldsReordered.Perm pharmacyFields from List.reverse_perm pharmacyFields)
    (by decide)


theorem mem_linkItem (l t : String) (u : JsValue) (item : ActionItem) :
    item ∈ linkItem l t u ↔
      truthy u = true ∧ item = { label := l
                                 badgeClass := "badge " ++ (if t = "safe" then "badge-good" else "badge-warn")
                                 badgeText := if t = "safe" then "safe" else "external"
                                 url := u } := by
  unfold linkItem
  split <;> simp_all

/-- C4: for every successful response, every rendered action item is either the
phone item, built from `telLink` and carrying the badge text "safe", or a maps,
calendar or generic item, built from `mapsUrl`, `calendarUrl` or `openUrl` and
carrying the badge text "external". -/
theorem C4_badges (w : World) (text : String) (status : Nat) (data : JsValue)
    (item : ActionItem)
    (h : item ∈ (sendToAgent w text (.response true status (some data))).actionsBox) :
    (item.label = "Call via phone dialer" ∧ item.url = fieldOr data "telLink" ∧
      item.badgeText = "safe" ∧ item.badgeClass = "badge badge-good") ∨
    (item.label = "Open Google Maps" ∧ item.url = fieldOr data "mapsUrl" ∧
      item.badgeText = "external" ∧ item.badgeClass = "badge badge-warn") ∨
    (item.label = "Add to Calendar" ∧ item.url = fieldOr data "calendarUrl" ∧
      item.badgeText = "external" ∧ item.badgeClass = "badge badge-warn") ∨
    (item.label = "Open link" ∧ item.url = fieldOr data "openUrl" ∧
      item.badgeText = "external" ∧ item.badgeClass = "badge badge-warn") := by
  cases hc : completes data with
  | false => rw [(run_throws w text status data hc).1] at h; simp at h
  | true =>
    rw [(run_completes w text status data hc).1] at h
    simp only [linkItems, List.mem_append, mem_linkItem] at h
    rcases h with ((⟨_, rfl⟩ | ⟨_, rfl⟩) | ⟨_, rfl⟩) | ⟨_, rfl⟩
    · exact Or.inl ⟨rfl, rfl, rfl, rfl⟩
    · exact Or.inr (Or.inl ⟨rfl, rfl, rfl, rfl⟩)
    · exact Or.inr (Or.inr (Or.inl ⟨rfl, rfl, rfl, rfl⟩))
    · exact Or.inr (Or.inr (Or.inr ⟨rfl, rfl, rfl, rfl⟩))


/-- C4, at the phone item of the example response. -/
theorem C4_badges_witness :
    ({ label := "Call via phone dialer", badgeClass := "badge badge-good",
       badgeText := "safe", url := .str "tel:+1555" } : ActionItem)
      ∈ (sendToAgent idlePage "x" (.response true 200 (some pharmacyBody))).actionsBox ∧
    (("Call via phone dialer" = "Call via phone dialer" ∧
        JsValue.str "tel:+1555" = fieldOr pharmacyBody "telLink" ∧
        "safe" = "safe" ∧ "badge badge-good" = "badge badge-good") ∨
      ("Call via phone dialer" = "Open Google Maps" ∧
        JsValue.str "tel:+1555" = fieldOr pharmacyBody "mapsUrl" ∧
        "safe" = "external" ∧ "badge badge-good" = "badge badge-warn") ∨
      ("Call via phone dialer" = "Add to Calendar" ∧
        JsValue.str "tel:+1555" = fieldOr pharmacyBody "calendarUrl" ∧
        "safe" = "external" ∧ "badge badge-good" = "badge badge-warn") ∨
      ("Call via phone dialer" = "Open link" ∧
        JsValue.str "tel:+1555" = fieldOr pharmacyBody "openUrl" ∧
        "safe" = "external" ∧ "badge badge-good" = "badge badge-warn")) :=
  ⟨List.mem_cons_self _ _,
   C4_badges idlePage "x" 200 pharmacyBody
     { label := "Call via phone dialer", badgeClass := "badge badge-good",
       badgeText := "safe", url := .str "tel:+1555" }
     (List.mem_cons_self _ _)⟩

/-- C5: for every successful response, with the auto-run setting checked the
links opened during the run are exactly the links of the rendered action items,
once each and in render order; with the setting unchecked no link is opened. -/
theorem C5_auto_run (w : World) (text : String) (status : Nat) (body : Option JsValue) :
    (w.autoRunActions = true →
      (sendToAgent w text (.response true status body)).opened
        = w.opened ++
          (sendToAgent w text (.response true status body)).actionsBox.map (·.url)) ∧
    (w.autoRunActions = false →
      (sendToAgent w text (.response true status body)).opened = w.opened) := by
  cases body with
  | none =>
    obtain ⟨h1, _, _, h4⟩ := run_fails w text (.response true status none)
      (Or.inr (Or.inr ⟨status, rfl⟩))
    rw [h1, h4]; simp
  | some data =>
    cases hc : completes data with
    | false =>
      obtain ⟨h1, _, _, _, h5⟩ := run_throws w text status data hc
      rw [h1, h5]; simp
    | true =>
      obtain ⟨h1, _, _, _, h5⟩ := run_completes w text status data hc
      rw [h1, h5]
      constructor <;> intro ha <;> simp [ha]

/-- C5, at the example response on a page with auto-run on and on one with
auto-run off. -/
theorem C5_auto_run_witness :
    (usedPage.autoRunActions = true ∧
      (sendToAgent usedPage "x" (.response true 200 (some pharmacyBody))).opened
        = [.str "tel:+1555", .str "https://maps/x"]) ∧
    (idlePage.autoRunActions = false ∧
      (sendToAgent idlePage "x" (.response true 200 (some pharmacyBody))).opened = []) :=
  ⟨⟨rfl, (C5_auto_run usedPage "x" 200 (some pharmacyBody)).1 rfl⟩,
   ⟨rfl, (C5_auto_run idlePage "x" 200 (some pharmacyBody)).2 rfl⟩⟩

theorem fieldOr_obj (fields : List (String × JsValue)) (k : String) :
    fieldOr (.obj fields) k = (lookupField k fields).getD .undefined := rfl

/-- C6: for every successful response whose body is an object, the plan list
after the run is empty when `steps` is absent or an empty array, and then no
error is logged and `speak` is called only for a truthy `speechResponse`;
when `steps` is an array the plan list holds exactly its elements, in order.
The example response yields its two steps in order. -/
theorem C6_plan_list (w : World) (text : String) (status : Nat)
    (fields : List (String × JsValue)) :
    (lookupField "steps" fields = none ∨ lookupField "steps" fields = some (.arr []) →
      (sendToAgent w text (.response true status (some (.obj fields)))).planList = [] ∧
      (sendToAgent w text (.response true status (some (.obj fields)))).errors = w.errors ∧
      (sendToAgent w text (.response true status (some (.obj fields)))).speakCalls
        = w.speakCalls ++
          (if truthy (fieldOr (.obj fields) "speechResponse") then
            [fieldOr (.obj fields) "speechResponse"] else [])) ∧
    (∀ items : List JsValue, lookupField "steps" fields = some (.arr items) →
      (sendToAgent w text (.response true status (some (.obj fields)))).planList = items ∧
      (sendToAgent w text (.response true status (some (.obj fields)))).errors = w.errors) ∧
    (sendToAgent w text (.response true status (some pharmacyBody))).planList
      = [.str "Find nearest pharmacy", .str "Call ahead"] := by
  refine ⟨?_, ?_, ?_⟩
  · intro h
    have hs : jsOr (fieldOr (.obj fields) "steps") (.arr []) = .arr [] := by
      rcases h with h | h <;> simp [fieldOr_obj, h, jsOr, truthy]
    have hc : completes (.obj fields) = true := by
      simp [completes, nullish, hs, lengthIsZero]
    obtain ⟨_, h2, h3, h4, _⟩ := run_completes w text status _ hc
    rw [h2, h3, h4]
    simp [planItems, hs, lengthIsZero, speechOf]
  · intro items h
    have hs : jsOr (fieldOr (.obj fields) "steps") (.arr []) = .arr items := by
      simp [fieldOr_obj, h, jsOr, truthy]
    have hc : completes (.obj fields) = true := by
      simp [completes, nullish, hs, isArr]
    obtain ⟨_, h2, h3, _, _⟩ := run_completes w text status _ hc
    rw [h2, h3]
    cases items <;> simp [planItems, hs, lengthIsZero, elems]
  · rw [(run_completes w text status pharmacyBody (by decide)).2.1]
    rfl

/-- C6, at a body without `steps` and at the example response. -/
theorem C6_plan_list_witness :
    (lookupField "steps" [("telLink", JsValue.str "tel:+1555")] = none ∧
      (sendToAgent usedPage "x"
        (.response true 200 (some (.obj [("telLink", .str "tel:+1555")])))).planList = []) ∧
    (lookupField "steps" pharmacyFields
        = some (.arr [.str "Find nearest pharmacy", .str "Call ahead"]) ∧
      (sendToAgent usedPage "x" (.response true 200 (some (.obj pharmacyFields)))).planList
        = [.str "Find nearest pharmacy", .str "Call ahead"]) :=
  ⟨⟨rfl, ((C6_plan_list usedPage "x" 200 [("telLink", .str "tel:+1555")]).1
      (Or.inl rfl)).1⟩,
   ⟨rfl, ((C6_plan_list usedPage "x" 200 pharmacyFields).2.1
      [.str "Find nearest pharmacy", .str "Call ahead"] rfl).1⟩⟩


/-- C7: `sendToAgent` issues its request from a page whose plan list and action
box are empty and whose transcript is the submitted text; and after one
submission run to completion the plan list and the action box depend on the
outcome of the request alone, not on the page before the submission nor on the
text. -/
theorem C7_clear_before_request (w : World) (text : String) :
    sendToAgent_begin w text = fetchAgent { clearUI w with transcript := text } text ∧
    ({ clearUI w with transcript := text } : World).planList = [] ∧
    ({ clearUI w with transcript := text } : World).actionsBox = [] ∧
    ({ clearUI w with transcript := text } : World).transcript = text ∧
    ({ clearUI w with transcript := text } : World).requests = w.requests ∧
    (sendToAgent_begin w text).requests = w.requests ++ [agentRequest text] ∧
    (∀ (v : World) (text' : String) (r : FetchOutcome),
      (sendToAgent w text r).planList = (sendToAgent v text' r).planList ∧
      (sendToAgent w text r).actionsBox = (sendToAgent v text' r).actionsBox) := by
  refine ⟨rfl, rfl, rfl, rfl, rfl, (begin_fields w text).2.2.2.2.2.2.2.2, ?_⟩
  intro v text' r
  have hfail : ∀ r : FetchOutcome,
      (r = .rejected ∨ (∃ status body, r = .response false status body) ∨
        (∃ status, r = .response true status none)) →
      (sendToAgent w text r).planList = (sendToAgent v text' r).planList ∧
      (sendToAgent w text r).actionsBox = (sendToAgent v text' r).actionsBox := by
    intro r hr
    obtain ⟨a1, a2, _, _⟩ := run_fails w text r hr
    obtain ⟨b1, b2, _, _⟩ := run_fails v text' r hr
    rw [a1, a2, b1, b2]
    exact ⟨rfl, rfl⟩
  cases r with
  | rejected => exact hfail _ (Or.inl rfl)
  | response ok status body =>
    cases ok with
    | false => exact hfail _ (Or.inr (Or.inl ⟨status, body, rfl⟩))
    | true =>
      cases body with
      | none => exact hfail _ (Or.inr (Or.inr ⟨status, rfl⟩))
      | some data =>
        cases hc : completes data with
        | false =>
          obtain ⟨a1, a2, _⟩ := run_throws w text status data hc
          obtain ⟨b1, b2, _⟩ := run_throws v text' status data hc
          rw [a1, a2, b1, b2]
          exact ⟨rfl, rfl⟩
        | true =>
          obtain ⟨a1, a2, _⟩ := run_completes w text status data hc
          obtain ⟨b1, b2, _⟩ := run_completes v text' status data hc
          rw [a1, a2, b1, b2]
          exact ⟨rfl, rfl⟩

/-- C8 as stated fails: in a session whose only result is an interim one the
accumulated final transcript is empty, yet the end event submits the interim
text. -/
theorem C8_interim_text_is_submitted :
    sessionFinal interimOnlySession = "" ∧
    (startListening idlePage).requests = [] ∧
    (voiceSession (startListening idlePage) interimOnlySession).requests
      = [agentRequest "hello"] := by
  decide

/-- A session without any result event on a page that still displays an earlier
request: the end event submits the earlier text again. -/
theorem stale_display_is_submitted :
    sessionFinal [] = "" ∧ usedPage.requests = [] ∧
    (voiceSession (startListening usedPage) []).requests = [agentRequest "earlier request"] := by
  decide

/-- C8, amended: in a session with at least one result event the end event
submits the trimmed content of the transcript display as the last result event
left it, which is the accumulated final transcript when that is not empty and
otherwise the interim text of the last event; nothing is submitted when that
content is empty after trimming.  So when the accumulated final transcript is
not empty, what is submitted is its trimmed value. -/
theorem C8_session_submits_display (w : World) (evs : List ResultEvent) (ev : ResultEvent) :
    (voiceSession w (evs ++ [ev])).requests
      = w.requests ++
        (if jsTrim (if sessionFinal (evs ++ [ev]) != "" then sessionFinal (evs ++ [ev])
                    else interimText ev) != ""
         then [agentRequest (jsTrim (if sessionFinal (evs ++ [ev]) != "" then
                  sessionFinal (evs ++ [ev]) else interimText ev))]
         else []) ∧
    (sessionFinal (evs ++ [ev]) ≠ "" →
      (voiceSession w (evs ++ [ev])).requests
        = w.requests ++
          (if jsTrim (sessionFinal (evs ++ [ev])) != ""
           then [agentRequest (jsTrim (sessionFinal (evs ++ [ev])))] else [])) := by
  have h : (voiceSession w (evs ++ [ev])).requests
      = w.requests ++
        (if jsTrim (if sessionFinal (evs ++ [ev]) != "" then sessionFinal (evs ++ [ev])
                    else interimText ev) != ""
         then [agentRequest (jsTrim (if sessionFinal (evs ++ [ev]) != "" then
                  sessionFinal (evs ++ [ev]) else interimText ev))]
         else []) := by
    unfold voiceSession
    rw [(onend_fields _).2.2.2, sessionResults_transcript,
      (sessionResults_fields w (evs ++ [ev])).2.1]
  refine ⟨h, ?_⟩
  intro hne
  rw [h]
  simp [hne]

/-- C8 amended, at a session whose interim result becomes final. -/
theorem C8_session_submits_display_witness :
    sessionFinal finalisedSession ≠ "" ∧
    (voiceSession (startListening idlePage) finalisedSession).requests
      = [agentRequest "call mom"] :=
  ⟨by decide,
   (C8_session_submits_display (startListening idlePage)
      [{ resultIndex := 0, results := [{ transcript := "call", isFinal := false }] }]
      { resultIndex := 0, results := [{ transcript := "call mom", isFinal := true }] }).2
      (by decide)⟩

/-- C9 as stated fails: a recognition error during a session that has displayed
"call mom" leaves the controller idle, and submits "call mom". -/
theorem C9_error_still_submits :
    listeningPage.isListening = true ∧ listeningPage.transcript = "call mom" ∧
    listeningPage.requests = [] ∧
    (errorThenEnd listeningPage).isListening = false ∧
    (errorThenEnd listeningPage).requests = [agentRequest "call mom"] := by
  decide

/-- C9, amended: a recognition error during a listening session makes `onerror`
call `recognition.stop()` on the session, and after the end event that follows
the controller is idle (`isListening` false, start control enabled, stop control
disabled); the end handler then submits the trimmed displayed transcript exactly
when it is not empty, so there is no submission when the display is empty or
white space. -/
theorem C9_error_forces_idle (w : World) (id : Nat) (hr : w.recognition = some id)
    (hl : w.isListening = true) :
    (recognition_onerror w).stopCalls = w.stopCalls ++ [id] ∧
    (errorThenEnd w).isListening = false ∧
    (errorThenEnd w).listenBtnDisabled = false ∧
    (errorThenEnd w).stopBtnDisabled = true ∧
    (errorThenEnd w).requests
      = w.requests ++ (if jsTrim w.transcript != "" then [agentRequest (jsTrim w.transcript)]
                       else []) ∧
    (jsTrim w.transcript = "" → (errorThenEnd w).requests = w.requests) := by
  have he : recognition_onerror w
      = { w with errors := w.errors ++ [.speech], stopCalls := w.stopCalls ++ [id] } := by
    simp [recognition_onerror, stopListening, hr, hl]
  obtain ⟨h1, h2, h3, h4⟩ := onend_fields (recognition_onerror w)
  unfold errorThenEnd
  rw [h1, h2, h3, h4, he]
  refine ⟨rfl, rfl, rfl, rfl, rfl, ?_⟩
  intro h
  simp [h]

/-- C9 amended, at the listening page that displays "call mom". -/
theorem C9_error_forces_idle_witness :
    (listeningPage.recognition = some 0 ∧ listeningPage.isListening = true) ∧
    (errorThenEnd listeningPage).isListening = false ∧
    (errorThenEnd listeningPage).listenBtnDisabled = false ∧
    (errorThenEnd listeningPage).stopBtnDisabled = true :=
  ⟨⟨rfl, rfl⟩,
   (C9_error_forces_idle listeningPage 0 rfl rfl).2.1,
   (C9_error_forces_idle listeningPage 0 rfl rfl).2.2.1,
   (C9_error_forces_idle listeningPage 0 rfl rfl).2.2.2.1⟩


theorem length_linkItem (l t : String) (u : JsValue) :
    (linkItem l t u).length = if truthy u then 1 else 0 := by
  unfold linkItem
  split <;> simp

theorem length_linkItems (data : JsValue) : (linkItems data).length = truthyLinks data := by
  simp only [linkItems, List.length_append, length_linkItem, truthyLinks]
  cases h1 : truthy (fieldOr data "telLink") <;> cases h2 : truthy (fieldOr data "mapsUrl") <;>
    cases h3 : truthy (fieldOr data "calendarUrl") <;>
    cases h4 : truthy (fieldOr data "openUrl") <;>
    simp [List.filter, h1, h2, h3, h4]

theorem label_in_linkItems (data : JsValue) (p : String × String) (hp : p ∈ linkFields) :
    ((∃ item ∈ linkItems data, item.label = p.2) → truthy (fieldOr data p.1) = true) ∧
    (truthy (fieldOr data p.1) = true →
      ∃ item ∈ linkItems data, item.label = p.2 ∧ item.url = fieldOr data p.1) := by
  simp only [linkFields, List.mem_cons, List.mem_singleton, List.not_mem_nil, or_false] at hp
  simp only [linkItems, List.mem_append, mem_linkItem]
  constructor
  · rintro ⟨item, hm, hl⟩
    rcases hm with ((⟨ht, rfl⟩ | ⟨ht, rfl⟩) | ⟨ht, rfl⟩) | ⟨ht, rfl⟩ <;>
      rcases hp with rfl | rfl | rfl | rfl <;>
      first | exact ht | (exfalso; revert hl; simp)
  · intro ht
    rcases hp with rfl | rfl | rfl | rfl
    · exact ⟨_, Or.inl (Or.inl (Or.inl ⟨ht, rfl⟩)), rfl, rfl⟩
    · exact ⟨_, Or.inl (Or.inl (Or.inr ⟨ht, rfl⟩)), rfl, rfl⟩
    · exact ⟨_, Or.inl (Or.inr ⟨ht, rfl⟩), rfl, rfl⟩
    · exact ⟨_, Or.inr ⟨ht, rfl⟩, rfl, rfl⟩

theorem completes_eq (data : JsValue) : completes data = planRenders data := by
  unfold completes planRenders jsOr
  cases ht : truthy (fieldOr data "steps") <;> cases nullish data <;>
    simp [lengthIsZero, isArr, Bool.or_comm]

/-- C10 as stated fails: the body `{steps: "abc", telLink: "tel:1"}` of a
successful response has a truthy `telLink`, yet `renderPlan` throws before the
link statements and no action item is rendered; the error is logged and the
apology spoken. -/
theorem C10_malformed_steps_renders_nothing :
    truthy (fieldOr malformedStepsBody "telLink") = true ∧
    truthyLinks malformedStepsBody = 1 ∧
    (sendToAgent idlePage "x"
      (.response true 200 (some malformedStepsBody))).actionsBox.length = 0 ∧
    (sendToAgent idlePage "x" (.response true 200 (some malformedStepsBody))).errors
      = [.typeError] := by
  decide

/-- C10, amended: for every successful response with a parsed body, the `try`
block runs without an error exactly when the body is not `null` and its `steps`
is falsy, an array, or of `length` 0.  On such a body an action item is
rendered for a link field exactly when the value of the field is truthy (for a
string value: not empty), the number of rendered items is the number of link
fields with a truthy value, and `speak` is called only for a truthy
`speechResponse`.  On every body an item is rendered only for a truthy link
field, a link field holding the empty string renders no item, and at most four
items are rendered.  On any other body `renderPlan` throws and nothing is
rendered. -/
theorem C10_links_when_plan_renders (w : World) (text : String) (status : Nat)
    (data : JsValue) :
    (planRenders data = true ↔
      (sendToAgent w text (.response true status (some data))).errors = w.errors) ∧
    (planRenders data = true →
      (∀ p ∈ linkFields,
        ((∃ item ∈ (sendToAgent w text (.response true status (some data))).actionsBox,
            item.label = p.2 ∧ item.url = fieldOr data p.1) ↔
          truthy (fieldOr data p.1) = true)) ∧
      (∀ p ∈ linkFields, ∀ s : String, fieldOr data p.1 = .str s →
        ((∃ item ∈ (sendToAgent w text (.response true status (some data))).actionsBox,
            item.label = p.2) ↔ s ≠ "")) ∧
      (sendToAgent w text (.response true status (some data))).actionsBox.length
        = truthyLinks data ∧
      (sendToAgent w text (.response true status (some data))).speakCalls
        = w.speakCalls ++
          (if truthy (fieldOr data "speechResponse") then
            [fieldOr data "speechResponse"] else []) ∧
      (fieldOr data "speechResponse" = .str "" →
        (sendToAgent w text (.response true status (some data))).speakCalls
          = w.speakCalls)) ∧
    (∀ p ∈ linkFields,
      (∃ item ∈ (sendToAgent w text (.response true status (some data))).actionsBox,
          item.label = p.2) → truthy (fieldOr data p.1) = true) ∧
    (∀ p ∈ linkFields, fieldOr data p.1 = .str "" →
      ¬ ∃ item ∈ (sendToAgent w text (.response true status (some data))).actionsBox,
          item.label = p.2) ∧
    (sendToAgent w text (.response true status (some data))).actionsBox.length
      ≤ truthyLinks data ∧
    (sendToAgent w text (.response true status (some data))).actionsBox.length ≤ 4 ∧
    (planRenders data = false →
      (sendToAgent w text (.response true status (some data))).actionsBox = [] ∧
      (sendToAgent w text (.response true status (some data))).errors
        = w.errors ++ [.typeError] ∧
      (sendToAgent w text (.response true status (some data))).speakCalls
        = w.speakCalls ++ [.str "Sorry, I encountered an error."]) := by
  have h4 : truthyLinks data ≤ 4 :=
    (List.length_filter_le _ _).trans (by decide)
  cases hc : planRenders data with
  | false =>
    obtain ⟨t1, _, t3, t4, _⟩ := run_throws w text status data ((completes_eq data).trans hc)
    rw [t1, t3, t4]
    simp
  | true =>
    obtain ⟨h1, _, h3, hsp, _⟩ := run_completes w text status data ((completes_eq data).trans hc)
    rw [h1, h3, hsp]
    have hfwd : ∀ p ∈ linkFields,
        (∃ item ∈ linkItems data, item.label = p.2) → truthy (fieldOr data p.1) = true :=
      fun p hp => (label_in_linkItems data p hp).1
    have hstr : ∀ p ∈ linkFields, ∀ s : String, fieldOr data p.1 = .str s →
        ((∃ item ∈ linkItems data, item.label = p.2) ↔ s ≠ "") := by
      intro p hp s hl
      have ht : truthy (fieldOr data p.1) = true ↔ s ≠ "" := by
        simp [hl, truthy]
      rw [← ht]
      exact ⟨hfwd p hp,
        fun h => let ⟨item, hm, hlab, _⟩ := (label_in_linkItems data p hp).2 h; ⟨item, hm, hlab⟩⟩
    refine ⟨by simp, fun _ => ⟨?_, hstr, length_linkItems data, rfl, ?_⟩, hfwd, ?_,
      (length_linkItems data).le, (length_linkItems data).le.trans h4, by simp⟩
    · intro p hp
      exact ⟨fun ⟨item, hm, hlab, _⟩ => hfwd p hp ⟨item, hm, hlab⟩,
        (label_in_linkItems data p hp).2⟩
    · intro hl
      simp [speechOf, hl, truthy]
    · intro p hp hl
      rw [hstr p hp "" hl]
      simp

/-- C10 amended, at a body whose `steps` is `null`, whose phone link is set and
whose maps link and speech are empty strings. -/
theorem C10_links_when_plan_renders_witness :
    planRenders nullStepsBody = true ∧
    (sendToAgent usedPage "x" (.response true 200 (some nullStepsBody))).actionsBox.length
      = 1 ∧
    (sendToAgent usedPage "x" (.response true 200 (some nullStepsBody))).speakCalls = [] ∧
    (∃ item ∈ (sendToAgent usedPage "x" (.response true 200 (some nullStepsBody))).actionsBox,
        item.label = "Call via phone dialer" ∧ item.url = .str "tel:1") ∧
    ¬ ∃ item ∈ (sendToAgent usedPage "x" (.response true 200 (some nullStepsBody))).actionsBox,
        item.label = "Open Google Maps" :=
  ⟨rfl,
   ((C10_links_when_plan_renders usedPage "x" 200 nullStepsBody).2.1 rfl).2.2.1,
   ((C10_links_when_plan_renders usedPage "x" 200 nullStepsBody).2.1 rfl).2.2.2.2 rfl,
   (((C10_links_when_plan_renders usedPage "x" 200 nullStepsBody).2.1 rfl).1
      ("telLink", "Call via phone dialer") (by decide)).2 rfl,
   (C10_links_when_plan_renders usedPage "x" 200 nullStepsBody).2.2.2.1
      ("mapsUrl", "Open Google Maps") (by decide) rfl⟩

end AgentUI
